import Mathlib

/-!
Shallow embedding of `src/main.py` (a Dash/plotly live pH dashboard) and
proofs about it.

Modelling conventions:
* A pandas `DataFrame` (the result of `pd.read_csv`) is a list of column
  names plus a list of rows of cells.  Cells are exact rationals (`Frac`,
  an unnormalized `Int` fraction kept exact so that every computation is
  kernel-executable), strings, parsed datetimes, or null (NaN/NaT/None).
* `pd.to_datetime(..., errors="coerce")` is modelled cellwise via an
  abstract datetime parser `parse : String → Option Int`; a cell whose
  parse fails coerces to null, exactly like `errors="coerce"`.
* The filesystem seen by one tick is `Option (Int × Option DataFrame)`:
  `none` when the file is absent, otherwise the modification time paired
  with the parse outcome (`none` when `pd.read_csv` itself raises).
* Python exceptions that `main.py` does not catch (e.g. `KeyError` from a
  column subscript) are modelled by `Except String`; the happy path is
  `.ok`.
* Presentation-only figure attributes (tick format, legend placement,
  margins, animation) are not modelled; series contents, titles and axis
  ranges are.
-/

namespace PhPlotter

/-! ### String helpers: Python `str.lower()` and the `in` substring test -/

def lcChar (c : Char) : Char :=
  if 65 ≤ c.toNat ∧ c.toNat ≤ 90 then Char.ofNat (c.toNat + 32) else c

def strLower (s : String) : String := ⟨s.toList.map lcChar⟩

def startsWithL : List Char → List Char → Bool
  | [], _ => true
  | _ :: _, [] => false
  | p :: ps, c :: cs => p == c && startsWithL ps cs

def infixOfL (pat : List Char) : List Char → Bool
  | [] => pat.isEmpty
  | c :: cs => startsWithL pat (c :: cs) || infixOfL pat cs

/-- Model of the Python substring test `pat in s` on strings. -/
def strContains (s pat : String) : Bool := infixOfL pat.toList s.toList

/-! ### Exact fractions

Numeric cells of the CSV are modelled as exact fractions with an `Int`
numerator and denominator.  Fractions are never normalized; every
constructor used below keeps the denominator positive, and ordering is
the cross-multiplication order.  This keeps all arithmetic fully
reducible by the kernel. -/

structure Frac where
  n : Int
  d : Int
deriving DecidableEq, Repr

def Frac.ofInt (k : Int) : Frac := ⟨k, 1⟩

def Frac.add (a b : Frac) : Frac := ⟨a.n * b.d + b.n * a.d, a.d * b.d⟩

def Frac.sub (a b : Frac) : Frac := ⟨a.n * b.d - b.n * a.d, a.d * b.d⟩

def Frac.mul (a b : Frac) : Frac := ⟨a.n * b.n, a.d * b.d⟩

/-- Comparison `a ≤ b` by cross multiplication (denominators are kept positive). -/
def Frac.le (a b : Frac) : Bool := decide (a.n * b.d ≤ b.n * a.d)

def Frac.floor (a : Frac) : Int := Int.fdiv a.n a.d

/-! ### Cells and data frames -/

inductive Cell where
  | num (q : Frac)
  | str (s : String)
  | dt (t : Int)
  | null
deriving DecidableEq, Repr

def isNullCell : Cell → Bool
  | .null => true
  | _ => false

structure DataFrame where
  cols : List String
  rows : List (List Cell)
deriving DecidableEq, Repr

/-- Column lookup, `df[c]`; `none` models a Python `KeyError`.  Short rows
are padded with nulls, as pandas pads missing cells with NaN. -/
def DataFrame.col? (df : DataFrame) (c : String) : Option (List Cell) :=
  match df.cols.findIdx? (· == c) with
  | some i => some (df.rows.map (fun r => r.getD i .null))
  | none => none

/-- In-place update of one column, `df[c] = df[c].map f`; the identity when
the column is absent (the source only maps columns it has just tested). -/
def DataFrame.mapCol (df : DataFrame) (c : String) (f : Cell → Cell) : DataFrame :=
  match df.cols.findIdx? (· == c) with
  | some i => { df with rows := df.rows.map (fun r => r.set i (f (r.getD i .null))) }
  | none => df

/-- Cellwise model of `pd.to_datetime(column, errors="coerce")`: strings go
through the abstract parser and coerce to null on failure, numbers are
read as epoch offsets, datetimes pass through, nulls stay null. -/
def to_datetime (parse : String → Option Int) : Cell → Cell
  | .str s => match parse s with
              | some t => .dt t
              | none => .null
  | .num q => .dt q.floor
  | .dt t => .dt t
  | .null => .null

/-! ### `read_csv_data` (src/main.py lines 15-67)

The existence check (lines 16-18) and the `pd.read_csv` try/except
(lines 20-22, 63-67) are handled by the caller, which owns the
filesystem model; this function is the body from line 24 on, a pure
function of the parsed frame.  The inner try/except around the `ph_time`
conversion (lines 31-35) is modelled as a single conversion: with
`errors="coerce"` the first `pd.to_datetime` call coerces instead of
raising, so the fallback-format branch is not taken. -/

structure CsvMeta where
  time_col : String
  ph_cols : List String
deriving DecidableEq, Repr

def allNullCol (c : Option (List Cell)) : Bool := (c.getD []).all isNullCell

/-- Lines 24-39, name part: `"pc_time"` when present, else `"ph_time"` when
present, else the literal `"samp_num"` (no existence check here). -/
def chooseTimeCol0 (df0 : DataFrame) : String :=
  if df0.cols.contains "pc_time" then "pc_time"
  else if df0.cols.contains "ph_time" then "ph_time"
  else "samp_num"

/-- Lines 24-39, conversion part: the chosen timestamp column, when one
exists, is converted with `pd.to_datetime`. -/
def convertTimeCol (parse : String → Option Int) (df0 : DataFrame) : DataFrame :=
  if df0.cols.contains "pc_time" then df0.mapCol "pc_time" (to_datetime parse)
  else if df0.cols.contains "ph_time" then df0.mapCol "ph_time" (to_datetime parse)
  else df0

/-- Lines 41-44: a chosen column whose name suggests time but whose
values are all invalid after conversion is demoted to `"samp_num"` when
that column exists, else to the first column. -/
def resolveTimeCol (df : DataFrame) (time_col0 : String) : String :=
  if strContains (strLower time_col0) "time" && allNullCol (df.col? time_col0) then
    if df.cols.contains "samp_num" then "samp_num" else df.cols.headD ""
  else time_col0

/-- Lines 46-55: the known pair of pH columns, else any column matching a
case-insensitive "ph" token that does not look like a time column. -/
def resolvePhCols (df : DataFrame) : List String :=
  let ph0 := (if df.cols.contains "pH_free" then ["pH_free"] else [])
          ++ (if df.cols.contains "ph_total" then ["ph_total"] else [])
  if ph0.isEmpty then
    df.cols.filter (fun c =>
      (strContains (strLower c) "ph" || strContains c "pH")
        && !strContains (strLower c) "time")
  else ph0

def read_csv_data (parse : String → Option Int) (df0 : DataFrame) :
    Option (DataFrame × CsvMeta) :=
  let df := convertTimeCol parse df0
  let time_col := resolveTimeCol df (chooseTimeCol0 df0)
  let ph_cols := resolvePhCols df
  -- lines 57-61
  if ph_cols.isEmpty then none else some (df, ⟨time_col, ph_cols⟩)

/-! ### Quantiles and the outlier classification (src/main.py lines 239-254)

`Series.quantile` with the default linear interpolation: null values are
skipped, the remaining values are sorted, and the value at fractional
position `q * (n - 1)` is linearly interpolated. -/

def sortedInsert (x : Frac) : List Frac → List Frac
  | [] => [x]
  | y :: ys => if x.le y then x :: y :: ys else y :: sortedInsert x ys

def sortFracs (xs : List Frac) : List Frac := xs.foldr sortedInsert []

/-- Linear-interpolation quantile of a sorted list at `qn/qd`;
`none` on an empty list (pandas returns NaN there). -/
def quantileSorted (s : List Frac) (qn qd : Int) : Option Frac :=
  match s with
  | [] => none
  | _ :: _ =>
    let h : Frac := ⟨qn * ((s.length : Int) - 1), qd⟩
    let i : Nat := h.floor.toNat
    let lo := s.getD i (Frac.ofInt 0)
    let hi := s.getD (i + 1) lo
    some (lo.add ((h.sub (Frac.ofInt h.floor)).mul (hi.sub lo)))

def quantile (xs : List Frac) (qn qd : Int) : Option Frac :=
  quantileSorted (sortFracs xs) qn qd

def cellToNum : Cell → Option Frac
  | .num q => some q
  | _ => none

/-- Lines 239-243: `q1`, `q3` and the IQR fence
`[q1 - 1.5*iqr, q3 + 1.5*iqr]`; `none` when the metric has no non-null
value (pandas yields NaN bounds there). -/
def iqrBounds (vals : List (Option Frac)) : Option (Frac × Frac) :=
  let nn := vals.filterMap id
  match quantile nn 1 4, quantile nn 3 4 with
  | some q1, some q3 =>
    let iqr := q3.sub q1
    some (q1.sub ((Frac.mk 3 2).mul iqr), q3.add ((Frac.mk 3 2).mul iqr))
  | _, _ => none

/-- Line 246: `(df[m] >= lower) & (df[m] <= upper)`.  A NaN comparison is
False in pandas, so a null cell is never in the normal mask; when the
bounds themselves are NaN every comparison is False. -/
def rawNormalMask (vals : List (Option Frac)) : List Bool :=
  match iqrBounds vals with
  | some (lb, ub) =>
    vals.map (fun v => match v with
      | some x => lb.le x && x.le ub
      | none => false)
  | none => vals.map (fun _ => false)

/-- Lines 246-250: the mask actually used — if fewer than 5 rows are in
the raw mask, every row is treated as normal. -/
def normalMask (vals : List (Option Frac)) : List Bool :=
  if (rawNormalMask vals).count true < 5 then vals.map (fun _ => true)
  else rawNormalMask vals

/-- Number of rows in `df[normal_mask]` (line 253). -/
def normalCount (vals : List (Option Frac)) : Nat := (normalMask vals).count true

/-- Number of rows in `df[~normal_mask]` (line 254). -/
def outlierCount (vals : List (Option Frac)) : Nat := (normalMask vals).count false

def nonNullCount (vals : List (Option Frac)) : Nat := (vals.filterMap id).length

/-! ### View state (src/main.py lines 193-221, 306-317)

`relayoutData` and the `view-state` store are JSON-ish dictionaries,
modelled as association lists from key strings to values. -/

inductive JVal where
  | jnum (q : Frac)
  | jstr (s : String)
  | jbool (b : Bool)
deriving DecidableEq, Repr

abbrev ViewDict := List (String × JVal)

/-- Python truthiness of an optional dict: `None` and `{}` are falsy. -/
def truthyView : Option ViewDict → Bool
  | none => false
  | some d => !d.isEmpty

/-- Line 197-198: the view-relevant key fragments. -/
def viewKeys : List String :=
  ["xaxis.range", "xaxis.autorange", "yaxis.range", "yaxis.autorange",
   "xaxis.type", "yaxis.type", "autosize"]

/-- Lines 199-201: keep the keys of the payload that contain one of the
view-relevant fragments. -/
def captureViewKeys (rd : ViewDict) : ViewDict :=
  rd.filter (fun kv => viewKeys.any (fun vk => strContains kv.1 vk))

/-- Lines 194-203: `current_view` for this tick — filter a truthy payload,
else fall back to a truthy stored view, else the empty dict. -/
def computeCurrentView (relay stored : Option ViewDict) : ViewDict :=
  if truthyView relay then captureViewKeys (relay.getD [])
  else if truthyView stored then stored.getD []
  else []

def lookupView (cv : ViewDict) (k : String) : Option JVal :=
  (cv.find? (fun kv => kv.1 == k)).map (·.2)

/-! ### Figures -/

structure Trace where
  name : String
  xs : List Cell
  ys : List Cell
  mode : String
  secondary : Bool
deriving DecidableEq, Repr

structure Figure where
  title : String
  traces : List Trace
  xrange : Option (JVal × JVal)
  yrange : Option (JVal × JVal)
  xTitle : String
  yTitle : String
  y2Title : String
deriving DecidableEq, Repr

/-- Lines 206-218 and 306-317: overwrite an axis range when the view holds
both endpoints for that axis; guarded by the truthiness of
`current_view`. -/
def applyCurrentView (fig : Figure) (cv : ViewDict) : Figure :=
  if cv.isEmpty then fig
  else
    let fig1 :=
      match lookupView cv "xaxis.range[0]", lookupView cv "xaxis.range[1]" with
      | some a, some b => { fig with xrange := some (a, b) }
      | _, _ => fig
    match lookupView cv "yaxis.range[0]", lookupView cv "yaxis.range[1]" with
    | some a, some b => { fig1 with yrange := some (a, b) }
    | _, _ => fig1

/-! ### The tick handler `update_graph` (src/main.py lines 174-351) -/

structure CacheEntry where
  mtime : Int
  ph_type : Option String
deriving DecidableEq, Repr

structure TickResult where
  fig : Figure
  status : String
  cache : Option CacheEntry
  view : Option ViewDict
deriving DecidableEq, Repr

/-- Lines 179-182. -/
def waitingFigure : Figure :=
  ⟨"Waiting for data file...", [], none, none, "", "", ""⟩

/-- Lines 227-228. -/
def readErrorFigure : Figure :=
  ⟨"Error reading data file", [], none, none, "", "", ""⟩

def showOptStr : Option String → String
  | some s => s
  | none => "None"

/-- Lines 339-343: the unknown-selected-metric placeholder. -/
def columnNotFoundFigure (selected : Option String) : Figure :=
  ⟨"Error: Selected column \x27" ++ showOptStr selected ++ "\x27 not found",
   [], none, none, "Time", "pH", ""⟩

/-- Lines 188-191: the fingerprint comparison against the
`last-data-update` store. -/
def needDataUpdate (last : Option CacheEntry) (mtime : Int)
    (selected : Option String) : Bool :=
  match last with
  | some c => !(c.mtime == mtime && c.ph_type == selected)
  | none => true

/-- Keep the elements of `xs` whose mask bit equals `keep`
(`df[normal_mask]` / `df[~normal_mask]` projected to one column). -/
def maskFilter {α : Type} (xs : List α) (mask : List Bool) (keep : Bool) : List α :=
  ((xs.zip mask).filter (fun p => p.2 == keep)).map (·.1)

/-- Line 288: `df["samp_num"] if "samp_num" in df.columns else
range(len(df))`. -/
def sampleCells (df : DataFrame) : List Cell :=
  match df.col? "samp_num" with
  | some cs => cs
  | none => (List.range df.rows.length).map (fun i => .num (Frac.ofInt i))

/-- Python `selected_ph_type in df.columns` (`None` is in no column set). -/
def selectedInCols (df : DataFrame) (selected : Option String) : Bool :=
  match selected with
  | some m => df.cols.contains m
  | none => false

/-- Lines 233-343: build the fresh figure for one successfully read frame.
A `.error` is an uncaught Python exception: subscripting the resolved
time column raises `KeyError` when that column does not exist (line 259,
`df_normal[time_col]`). -/
def buildFigure (df : DataFrame) (time_col : String) (selected : Option String)
    (cv : ViewDict) : Except String Figure :=
  match selected with
  | some m =>
    if df.cols.contains m then
      let metricCells := (df.col? m).getD []
      let vals := metricCells.map cellToNum
      let mask := normalMask vals
      match df.col? time_col with
      | none => .error ("KeyError: " ++ time_col)
      | some timeCells =>
        let normalTrace : Trace :=
          ⟨m, maskFilter timeCells mask true, maskFilter metricCells mask true,
           "lines+markers", false⟩
        let outlierXs := maskFilter timeCells mask false
        let outlierTraces : List Trace :=
          if outlierXs.isEmpty then []
          else [⟨"Outliers", outlierXs, maskFilter metricCells mask false,
                 "markers", false⟩]
        let auxTrace : Trace :=
          ⟨"Sample Number", timeCells, sampleCells df, "lines", true⟩
        let fig : Figure :=
          ⟨m ++ " vs " ++ time_col, [normalTrace] ++ outlierTraces ++ [auxTrace],
           none, none, time_col, m, "Sample Number"⟩
        .ok (applyCurrentView fig cv)
    else .ok (columnNotFoundFigure selected)
  | none => .ok (columnNotFoundFigure selected)

/-- One tick of the plot callback, lines 174-351.

* `fs` — the backing file: `none` when absent, else the modification time
  and the `pd.read_csv` outcome (`none` when the parse raises).
* `parse` — the abstract datetime parser used by the read.
* `now` — the wall-clock string interpolated into the status text.
* The remaining arguments are the callback inputs and states in source
  order: the dropdown value, the current figure, `relayoutData`, the
  `view-state` store and the `last-data-update` store. -/
def update_graph (fs : Option (Int × Option DataFrame))
    (parse : String → Option Int) (now : String)
    (selected : Option String) (current_figure : Option Figure)
    (relay stored : Option ViewDict) (last : Option CacheEntry) :
    Except String TickResult :=
  match fs with
  | none => .ok ⟨waitingFigure, "Waiting for file to be created...", none, none⟩
  | some (mtime, parsed) =>
    match needDataUpdate last mtime selected, current_figure with
    | false, some fig =>
      .ok ⟨applyCurrentView fig (computeCurrentView relay stored),
           "Last updated: " ++ now ++ " (no changes)",
           last, some (computeCurrentView relay stored)⟩
    | _, _ =>
      match parsed.bind (read_csv_data parse) with
      | none => .ok ⟨readErrorFigure, "Error reading data", none,
                     some (computeCurrentView relay stored)⟩
      | some (df, meta) =>
        match buildFigure df meta.time_col selected (computeCurrentView relay stored) with
        | .error e => .error e
        | .ok fig => .ok ⟨fig, "Last updated: " ++ now, some ⟨mtime, selected⟩,
                          some (computeCurrentView relay stored)⟩

/-! ### The dropdown default (src/main.py lines 142-151) -/

/-- Lines 144-149: the fixed metric preference. -/
def defaultMetric (ph_cols : List String) : Option String :=
  if ph_cols.contains "ph_total" then some "ph_total"
  else if ph_cols.contains "pH_free" then some "pH_free"
  else ph_cols.head?

/-- Lines 142-151: the dropdown value picked by `update_dropdown` once the
file has been read — keep a still-valid current value, otherwise pick the
default. -/
def dropdownValueUpdate (current : Option String) (ph_cols : List String) :
    Option String :=
  match current with
  | some v => if ph_cols.contains v then some v else defaultMetric ph_cols
  | none => defaultMetric ph_cols

/-! ### Helper lemmas -/

theorem count_true_add_count_false (l : List Bool) :
    l.count true + l.count false = l.length := by
  induction l with
  | nil => rfl
  | cons b t ih => cases b <;> simp [List.count_cons, ih] <;> omega

theorem length_rawNormalMask (vals : List (Option Frac)) :
    (rawNormalMask vals).length = vals.length := by
  unfold rawNormalMask
  rcases iqrBounds vals with _ | ⟨lb, ub⟩ <;> simp

theorem count_map_true {α : Type} (l : List α) :
    (l.map (fun _ => true)).count false = 0
      ∧ (l.map (fun _ => true)).count true = l.length := by
  induction l with
  | nil => exact ⟨rfl, rfl⟩
  | cons a t ih => simp [List.count_cons, List.count_replicate, ih.1, ih.2]

theorem length_normalMask (vals : List (Option Frac)) :
    (normalMask vals).length = vals.length := by
  unfold normalMask
  split
  · simp
  · exact length_rawNormalMask vals

/-- The cache-hit branch of `update_graph` in one equation: matching
fingerprint and an existing figure short-circuit to the reapplied cached
figure.  Note the right-hand side does not mention `parsed` — the file
content is never consulted. -/
theorem update_graph_reuse_eq (parse : String → Option Int) (now : String)
    (selected : Option String) (fig : Figure) (relay stored : Option ViewDict)
    (mtime : Int) (parsed : Option DataFrame) :
    update_graph (some (mtime, parsed)) parse now selected (some fig) relay stored
        (some ⟨mtime, selected⟩)
      = .ok ⟨applyCurrentView fig (computeCurrentView relay stored),
             "Last updated: " ++ now ++ " (no changes)",
             some ⟨mtime, selected⟩, some (computeCurrentView relay stored)⟩ := by
  unfold update_graph needDataUpdate
  simp

/-! ### Claims -/

/-- C1: if the current fingerprint (file modification time, selected
metric) equals the cached one and a cached figure exists, the tick
returns the cached figure with only the current view state reapplied to
its axis ranges, and neither the source read nor the outlier
classification runs: the result is a function of the cached figure and
the view alone — the right-hand side does not depend on the file
content `parsed`. -/
theorem C1_cache_hit_skips_read (parse : String → Option Int) (now : String)
    (selected : Option String) (fig : Figure) (relay stored : Option ViewDict)
    (mtime : Int) (parsed : Option DataFrame) :
    update_graph (some (mtime, parsed)) parse now selected (some fig) relay stored
        (some ⟨mtime, selected⟩)
      = .ok ⟨applyCurrentView fig (computeCurrentView relay stored),
             "Last updated: " ++ now ++ " (no changes)",
             some ⟨mtime, selected⟩, some (computeCurrentView relay stored)⟩ :=
  update_graph_reuse_eq parse now selected fig relay stored mtime parsed

/-- C4 counterexample: for the metric values `[7, 7, 7, 7, 7, null]` the
claimed invariant `|normal| + |outliers| = number of non-null rows`
fails: the IQR fence is `[7, 7]`, the five sevens are normal, and the
null row lands in the outlier series (a NaN comparison is False in
pandas, so `~normal_mask` captures it), giving `5 + 1 = 6` against `5`
non-null rows. -/
theorem C4_counterexample :
    ¬ (normalCount [some ⟨7,1⟩, some ⟨7,1⟩, some ⟨7,1⟩, some ⟨7,1⟩, some ⟨7,1⟩, none]
         + outlierCount [some ⟨7,1⟩, some ⟨7,1⟩, some ⟨7,1⟩, some ⟨7,1⟩, some ⟨7,1⟩, none]
       = nonNullCount [some ⟨7,1⟩, some ⟨7,1⟩, some ⟨7,1⟩, some ⟨7,1⟩, some ⟨7,1⟩, none]) := by
  decide

/-- C4 amended: the classification partitions all rows — the number of
points in the normal series plus the number in the outlier series equals
the **total** number of rows of the dataset (rows whose metric value is
null are classified as outliers, or as normal when the degenerate-fence
guard fires), not the number of rows with a non-null value. -/
theorem C4_partition_total_rows (vals : List (Option Frac)) :
    normalCount vals + outlierCount vals = vals.length := by
  unfold normalCount outlierCount
  rw [count_true_add_count_false, length_normalMask]

/-- C6: when fewer than 5 rows fall inside the IQR fence (the raw normal
mask), the classification treats every row as normal and the outlier
series is empty. -/
theorem C6_degenerate_fence_guard (vals : List (Option Frac))
    (h : (rawNormalMask vals).count true < 5) :
    outlierCount vals = 0 ∧ normalCount vals = vals.length := by
  unfold outlierCount normalCount normalMask
  rw [if_pos h]
  exact ⟨(count_map_true vals).1, (count_map_true vals).2⟩

/-- C6 witness: the dataset `[0, 10, 10, 10, 1000]` has the degenerate
fence `[10, 10]` with only 3 inliers, and its outlier series is
empty. -/
theorem C6_witness :
    (rawNormalMask [some ⟨0,1⟩, some ⟨10,1⟩, some ⟨10,1⟩, some ⟨10,1⟩, some ⟨1000,1⟩]).count true < 5
      ∧ outlierCount [some ⟨0,1⟩, some ⟨10,1⟩, some ⟨10,1⟩, some ⟨10,1⟩, some ⟨1000,1⟩] = 0
      ∧ normalCount [some ⟨0,1⟩, some ⟨10,1⟩, some ⟨10,1⟩, some ⟨10,1⟩, some ⟨1000,1⟩] = 5 :=
  ⟨by decide,
   (C6_degenerate_fence_guard _ (by decide)).1,
   (C6_degenerate_fence_guard _ (by decide)).2⟩

theorem applyCurrentView_ranges (fig : Figure) (cv : ViewDict) (a b c d : JVal)
    (hx0 : lookupView cv "xaxis.range[0]" = some a)
    (hx1 : lookupView cv "xaxis.range[1]" = some b)
    (hy0 : lookupView cv "yaxis.range[0]" = some c)
    (hy1 : lookupView cv "yaxis.range[1]" = some d) :
    (applyCurrentView fig cv).xrange = some (a, b)
      ∧ (applyCurrentView fig cv).yrange = some (c, d) := by
  have hne : cv.isEmpty = false := by
    cases cv with
    | nil => simp [lookupView] at hx0
    | cons kv t => rfl
  unfold applyCurrentView
  rw [hne, hx0, hx1, hy0, hy1]
  simp

/-- C2: a view state carrying explicit endpoints for both axes forces
exactly those axis ranges in the produced chart description, on the
cache-reuse path and on the (successful, metric-present) full-rebuild
path alike, independent of the underlying series data. -/
theorem C2_view_ranges_preserved (relay stored : Option ViewDict) (a b c d : JVal)
    (hx0 : lookupView (computeCurrentView relay stored) "xaxis.range[0]" = some a)
    (hx1 : lookupView (computeCurrentView relay stored) "xaxis.range[1]" = some b)
    (hy0 : lookupView (computeCurrentView relay stored) "yaxis.range[0]" = some c)
    (hy1 : lookupView (computeCurrentView relay stored) "yaxis.range[1]" = some d) :
    (∀ (parse : String → Option Int) (now : String) (selected : Option String)
       (fig : Figure) (mtime : Int) (parsed : Option DataFrame) (r : TickResult),
       update_graph (some (mtime, parsed)) parse now selected (some fig) relay stored
           (some ⟨mtime, selected⟩) = .ok r →
       r.fig.xrange = some (a, b) ∧ r.fig.yrange = some (c, d))
    ∧ (∀ (parse : String → Option Int) (now : String) (m : String)
         (curfig : Option Figure) (mtime : Int) (df df' : DataFrame)
         (meta : CsvMeta) (last : Option CacheEntry) (r : TickResult),
         needDataUpdate last mtime (some m) = true →
         read_csv_data parse df = some (df', meta) →
         df'.cols.contains m = true →
         update_graph (some (mtime, some df)) parse now (some m) curfig relay stored
             last = .ok r →
         r.fig.xrange = some (a, b) ∧ r.fig.yrange = some (c, d)) := by
  constructor
  · intro parse now selected fig mtime parsed r hr
    rw [update_graph_reuse_eq] at hr
    cases hr
    exact applyCurrentView_ranges fig _ a b c d hx0 hx1 hy0 hy1
  · intro parse now m curfig mtime df df' meta last r hneed hread hm hr
    unfold update_graph at hr
    dsimp only at hr
    rw [hneed] at hr
    simp only [Option.bind_eq_bind, Option.some_bind, hread] at hr
    unfold buildFigure at hr
    dsimp only at hr
    simp only [hm, eq_self_iff_true, if_true] at hr
    rcases hcol : df'.col? meta.time_col with _ | timeCells
    · rw [hcol] at hr
      simp at hr
    · rw [hcol] at hr
      simp only [Except.ok.injEq] at hr
      cases hr
      exact applyCurrentView_ranges _ _ a b c d hx0 hx1 hy0 hy1

/-- C3 counterexample, in two parts.

Part (a): a metric absent from every column (`"nope"`, while the
resolved value columns are `["pH_free"]`) does hit the "column not
found" placeholder, but the tick also **updates** the cached
fingerprint: starting from an empty cache (`none`) it returns
`some ⟨5, some "nope"⟩` — the fall-through at lines 345-349 runs on this
path too, so the cache does not stay unchanged as claimed.

Part (b): the guard at line 237 is `selected_ph_type in df.columns`,
membership in **all** dataframe columns, not in the resolved value
columns.  With columns `["pc_time", "pH_free", "temp"]` the resolved
value columns are `["pH_free"]`, yet selecting `"temp"` produces no
placeholder at all: the tick plots `"temp vs pc_time"` and caches
`(5, "temp")`, so the claim's condition ("not among the resolved value
columns") does not trigger the placeholder either. -/
theorem C3_counterexample :
    (update_graph (some (5, some ⟨["pc_time", "pH_free"], []⟩)) (fun _ => none) "t"
        (some "nope") none none none none
      = .ok ⟨columnNotFoundFigure (some "nope"), "Last updated: t",
             some ⟨5, some "nope"⟩, some []⟩
     ∧ some (⟨5, some "nope"⟩ : CacheEntry) ≠ (none : Option CacheEntry))
    ∧ ((update_graph (some (5, some ⟨["pc_time", "pH_free", "temp"],
            [[.dt 0, .num ⟨7,1⟩, .num ⟨20,1⟩]]⟩)) (fun _ => none) "t"
          (some "temp") none none none none).map (fun r => (r.fig.title, r.cache))
        = .ok ("temp vs pc_time", some ⟨5, some "temp"⟩)
     ∧ (read_csv_data (fun _ => none) ⟨["pc_time", "pH_free", "temp"],
            [[.dt 0, .num ⟨7,1⟩, .num ⟨20,1⟩]]⟩).map (fun p => p.2.ph_cols)
        = some ["pH_free"]
     ∧ "temp vs pc_time" ≠ (columnNotFoundFigure (some "temp")).title) :=
  ⟨⟨rfl, by decide⟩, rfl, rfl, by decide⟩

/-- C3 amended: when a rebuild runs and the selected metric is not among
the dataset's **columns** (the code's guard at line 237 tests membership
in all dataframe columns, not in the resolved value columns), the tick
emits the "column not found" placeholder chart **and updates** the
cached fingerprint to the current (modification time, selected metric)
pair. -/
theorem C3_unknown_metric_updates_cache (parse : String → Option Int) (now : String)
    (mtime : Int) (df df' : DataFrame) (meta : CsvMeta) (selected : Option String)
    (curfig : Option Figure) (relay stored : Option ViewDict)
    (last : Option CacheEntry)
    (hneed : needDataUpdate last mtime selected = true)
    (hread : read_csv_data parse df = some (df', meta))
    (hsel : selectedInCols df' selected = false) :
    update_graph (some (mtime, some df)) parse now selected curfig relay stored last
      = .ok ⟨columnNotFoundFigure selected, "Last updated: " ++ now,
             some ⟨mtime, selected⟩, some (computeCurrentView relay stored)⟩ := by
  unfold update_graph
  dsimp only
  rw [hneed]
  simp only [Option.bind_eq_bind, Option.some_bind, hread]
  unfold buildFigure
  cases selected with
  | none => rfl
  | some m =>
    have hm : df'.cols.contains m = false := by
      simpa [selectedInCols] using hsel
    have hmem : m ∉ df'.cols := by simpa using hm
    simp [hm, hmem]

/-- C3 witness: the amended behaviour at a concrete tick — unknown metric
`"nope"` against resolved columns `["pH_free"]`, empty cache. -/
theorem C3_witness :
    update_graph (some (5, some ⟨["pc_time", "pH_free"], []⟩)) (fun _ => none) "u"
        (some "nope") none none none none
      = .ok ⟨columnNotFoundFigure (some "nope"), "Last updated: u",
             some ⟨5, some "nope"⟩, some []⟩ :=
  C3_unknown_metric_updates_cache (fun _ => none) "u" 5
    ⟨["pc_time", "pH_free"], []⟩ ⟨["pc_time", "pH_free"], []⟩
    ⟨"pc_time", ["pH_free"]⟩ (some "nope") none none none none rfl rfl rfl

/-- C5 counterexample: a truthy interaction payload containing only the
irrelevant key `"legend.x"`, with a non-empty stored view, is **not**
retained: on a cache-hit tick the stored view `[("xaxis.range[0]", 0)]`
is replaced by the empty view `[]` (lines 195-203 never reach the
`elif stored_view_state` branch when `relay_data` is truthy). -/
theorem C5_counterexample :
    (update_graph (some (5, some ⟨["pc_time", "pH_free"], []⟩)) (fun _ => none) "t"
        (some "pH_free") (some ⟨"f", [], none, none, "", "", ""⟩)
        (some [("legend.x", .jnum ⟨1,1⟩)])
        (some [("xaxis.range[0]", .jnum ⟨0,1⟩)])
        (some ⟨5, some "pH_free"⟩)).map TickResult.view
      = .ok (some [])
    ∧ (some ([] : ViewDict) ≠ some [("xaxis.range[0]", JVal.jnum ⟨0,1⟩)]) :=
  ⟨rfl, by decide⟩

/-- C5 amended: the stored view state is retained only when the
interaction payload is absent or empty (falsy); when the payload is
truthy but contains none of the axis-range/autorange-relevant keys, the
captured view is the empty dictionary, erasing the stored view. -/
theorem C5_capture_irrelevant_payload (relay stored : Option ViewDict) :
    (truthyView relay = false → computeCurrentView relay stored = stored.getD [])
    ∧ (truthyView relay = true →
        (relay.getD []).all
            (fun kv => !(viewKeys.any (fun vk => strContains kv.1 vk))) = true →
        computeCurrentView relay stored = []) := by
  constructor
  · intro h
    unfold computeCurrentView
    rw [h]
    cases stored with
    | none => simp [truthyView]
    | some d =>
      cases d with
      | nil => simp [truthyView]
      | cons a t => simp [truthyView]
  · intro h hall
    unfold computeCurrentView
    rw [h]
    simp only [if_true]
    unfold captureViewKeys
    apply List.filter_eq_nil_iff.mpr
    intro kv hkv
    have := List.all_eq_true.mp hall kv hkv
    simpa using this

/-- C5 witness: an absent payload keeps the stored view; a truthy payload
holding only `"legend.x"` yields the empty view. -/
theorem C5_witness :
    computeCurrentView none (some [("xaxis.range[0]", JVal.jnum ⟨0,1⟩)])
        = [("xaxis.range[0]", JVal.jnum ⟨0,1⟩)]
    ∧ computeCurrentView (some [("legend.x", JVal.jnum ⟨1,1⟩)])
        (some [("xaxis.range[0]", JVal.jnum ⟨0,1⟩)]) = [] :=
  ⟨(C5_capture_irrelevant_payload none
      (some [("xaxis.range[0]", JVal.jnum ⟨0,1⟩)])).1 rfl,
   (C5_capture_irrelevant_payload (some [("legend.x", JVal.jnum ⟨1,1⟩)])
      (some [("xaxis.range[0]", JVal.jnum ⟨0,1⟩)])).2 rfl (by decide)⟩

/-- C2 witness: a payload holding explicit endpoints for both axes, on a
concrete cache-hit tick. -/
theorem C2_witness :
    (TickResult.mk
        ⟨"f", [], some (.jnum ⟨1,1⟩, .jnum ⟨2,1⟩), some (.jnum ⟨3,1⟩, .jnum ⟨4,1⟩),
         "", "", ""⟩
        "Last updated: t (no changes)" (some ⟨0, none⟩)
        (some [("xaxis.range[0]", .jnum ⟨1,1⟩), ("xaxis.range[1]", .jnum ⟨2,1⟩),
               ("yaxis.range[0]", .jnum ⟨3,1⟩), ("yaxis.range[1]", .jnum ⟨4,1⟩)])).fig.xrange
      = some (.jnum ⟨1,1⟩, .jnum ⟨2,1⟩)
    ∧ (TickResult.mk
        ⟨"f", [], some (.jnum ⟨1,1⟩, .jnum ⟨2,1⟩), some (.jnum ⟨3,1⟩, .jnum ⟨4,1⟩),
         "", "", ""⟩
        "Last updated: t (no changes)" (some ⟨0, none⟩)
        (some [("xaxis.range[0]", .jnum ⟨1,1⟩), ("xaxis.range[1]", .jnum ⟨2,1⟩),
               ("yaxis.range[0]", .jnum ⟨3,1⟩), ("yaxis.range[1]", .jnum ⟨4,1⟩)])).fig.yrange
      = some (.jnum ⟨3,1⟩, .jnum ⟨4,1⟩) :=
  (C2_view_ranges_preserved
      (some [("xaxis.range[0]", .jnum ⟨1,1⟩), ("xaxis.range[1]", .jnum ⟨2,1⟩),
             ("yaxis.range[0]", .jnum ⟨3,1⟩), ("yaxis.range[1]", .jnum ⟨4,1⟩)])
      none (.jnum ⟨1,1⟩) (.jnum ⟨2,1⟩) (.jnum ⟨3,1⟩) (.jnum ⟨4,1⟩)
      rfl rfl rfl rfl).1
    (fun _ => none) "t" none ⟨"f", [], none, none, "", "", ""⟩ 0 none _ rfl

/-- Decomposition of a successful read into the named resolution rules. -/
theorem read_csv_data_components (parse : String → Option Int) (df0 df : DataFrame)
    (meta : CsvMeta) (hr : read_csv_data parse df0 = some (df, meta)) :
    df = convertTimeCol parse df0
      ∧ meta.time_col = resolveTimeCol df (chooseTimeCol0 df0)
      ∧ meta.ph_cols = resolvePhCols df := by
  unfold read_csv_data at hr
  dsimp only at hr
  split at hr
  · simp at hr
  · simp only [Option.some.injEq, Prod.mk.injEq] at hr
    obtain ⟨h1, h2⟩ := hr
    subst h1
    subst h2
    exact ⟨rfl, rfl, rfl⟩

/-- C7 counterexample: a frame whose columns are `["foo", "pH_free"]` has
neither timestamp column nor a `"samp_num"` column; the claim's policy
("else the ordinal sample-index column; else the dataset's first
column") would resolve the first column `"foo"`, but the code resolves
the absent name `"samp_num"` — line 39 assigns it without an existence
check, and no first-column fallback exists outside the demotion
branch. -/
theorem C7_counterexample :
    read_csv_data (fun _ => none) ⟨["foo", "pH_free"], [[.num ⟨1,1⟩, .num ⟨7,1⟩]]⟩
      = some (⟨["foo", "pH_free"], [[.num ⟨1,1⟩, .num ⟨7,1⟩]]⟩,
              ⟨"samp_num", ["pH_free"]⟩)
    ∧ (⟨["foo", "pH_free"], [[.num ⟨1,1⟩, .num ⟨7,1⟩]]⟩ : DataFrame).cols.contains
        "samp_num" = false
    ∧ "samp_num" ≠ "foo" :=
  ⟨rfl, rfl, by decide⟩

/-- C7 amended: the resolution priority is `"pc_time"`; else `"ph_time"`;
else the literal name `"samp_num"` **whether or not that column exists**
(no first-column fallback at this stage); and a chosen timestamp column
whose converted values are all invalid is demoted to `"samp_num"` when
present, else to the dataset's first column. -/
theorem C7_time_col_policy (parse : String → Option Int) (df0 df : DataFrame)
    (meta : CsvMeta) (hr : read_csv_data parse df0 = some (df, meta)) :
    (df0.cols.contains "pc_time" = true →
      meta.time_col =
        (if allNullCol (df.col? "pc_time") then
          (if df.cols.contains "samp_num" then "samp_num" else df.cols.headD "")
         else "pc_time"))
    ∧ (df0.cols.contains "pc_time" = false → df0.cols.contains "ph_time" = true →
      meta.time_col =
        (if allNullCol (df.col? "ph_time") then
          (if df.cols.contains "samp_num" then "samp_num" else df.cols.headD "")
         else "ph_time"))
    ∧ (df0.cols.contains "pc_time" = false → df0.cols.contains "ph_time" = false →
      meta.time_col = "samp_num") := by
  obtain ⟨-, htc, -⟩ := read_csv_data_components parse df0 df meta hr
  refine ⟨?_, ?_, ?_⟩
  · intro h1
    rw [htc]
    unfold chooseTimeCol0
    rw [if_pos h1]
    unfold resolveTimeCol
    rw [show strContains (strLower "pc_time") "time" = true from rfl, Bool.true_and]
  · intro h1 h2
    rw [htc]
    unfold chooseTimeCol0
    rw [if_neg (by rw [h1]; simp), if_pos h2]
    unfold resolveTimeCol
    rw [show strContains (strLower "ph_time") "time" = true from rfl, Bool.true_and]
  · intro h1 h2
    rw [htc]
    unfold chooseTimeCol0
    rw [if_neg (by rw [h1]; simp), if_neg (by rw [h2]; simp)]
    unfold resolveTimeCol
    rw [show strContains (strLower "samp_num") "time" = false from rfl, Bool.false_and]
    simp

/-- C7 witness: a frame with an entirely unparseable `ph_time` column is
demoted per the second clause of the policy. -/
theorem C7_witness :
    (⟨"ph_time", ["pH_free"]⟩ : CsvMeta).time_col
      = (if allNullCol ((⟨["ph_time", "pH_free"],
              [[.null, .num ⟨7,1⟩]]⟩ : DataFrame).col? "ph_time")
         then (if (⟨["ph_time", "pH_free"],
                  [[.null, .num ⟨7,1⟩]]⟩ : DataFrame).cols.contains "samp_num"
               then "samp_num"
               else (⟨["ph_time", "pH_free"],
                  [[.null, .num ⟨7,1⟩]]⟩ : DataFrame).cols.headD "")
         else "ph_time") :=
  (C7_time_col_policy (fun _ => none)
      ⟨["ph_time", "pH_free"], [[.str "x", .num ⟨7,1⟩]]⟩
      ⟨["ph_time", "pH_free"], [[.null, .num ⟨7,1⟩]]⟩
      ⟨"ph_time", ["pH_free"]⟩ rfl).2.1 rfl rfl

/-- C8: the tick handler is **not** total.  For a file whose columns are
`["foo", "pH_free"]` — no `pc_time`, no `ph_time` and no `samp_num` —
the reader resolves the absent time column `"samp_num"` (line 39 assigns
it without checking existence), and the rebuild then subscripts it at
line 259 (`df_normal[time_col]`): an uncaught Python `KeyError` escapes
the callback instead of degrading to a placeholder chart. -/
theorem C8_keyerror_on_missing_samp_num :
    update_graph (some (5, some ⟨["foo", "pH_free"], [[.num ⟨1,1⟩, .num ⟨7,1⟩]]⟩))
        (fun _ => none) "t" (some "pH_free") none none none none
      = .error "KeyError: samp_num" := rfl

/-- C9: the read is a deterministic pure function of the parsed file
content — two reads of the same content agree on rows, columns, the
resolved time column and the resolved value columns. -/
theorem C9_read_deterministic (parse : String → Option Int) (df0 df1 df2 : DataFrame)
    (m1 m2 : CsvMeta)
    (h1 : read_csv_data parse df0 = some (df1, m1))
    (h2 : read_csv_data parse df0 = some (df2, m2)) :
    df1.cols = df2.cols ∧ df1.rows = df2.rows
      ∧ m1.time_col = m2.time_col ∧ m1.ph_cols = m2.ph_cols := by
  rw [h1] at h2
  simp only [Option.some.injEq, Prod.mk.injEq] at h2
  obtain ⟨ha, hb⟩ := h2
  subst ha
  subst hb
  exact ⟨rfl, rfl, rfl, rfl⟩

/-- C9 witness: two concrete reads of the same frame. -/
theorem C9_witness :
    (⟨["ph_time", "pH_free"], [[.null, .num ⟨7,1⟩]]⟩ : DataFrame).cols
        = (⟨["ph_time", "pH_free"], [[.null, .num ⟨7,1⟩]]⟩ : DataFrame).cols
      ∧ (⟨["ph_time", "pH_free"], [[.null, .num ⟨7,1⟩]]⟩ : DataFrame).rows
        = (⟨["ph_time", "pH_free"], [[.null, .num ⟨7,1⟩]]⟩ : DataFrame).rows
      ∧ (⟨"ph_time", ["pH_free"]⟩ : CsvMeta).time_col
        = (⟨"ph_time", ["pH_free"]⟩ : CsvMeta).time_col
      ∧ (⟨"ph_time", ["pH_free"]⟩ : CsvMeta).ph_cols
        = (⟨"ph_time", ["pH_free"]⟩ : CsvMeta).ph_cols :=
  C9_read_deterministic (fun _ => none)
    ⟨["ph_time", "pH_free"], [[.str "x", .num ⟨7,1⟩]]⟩
    ⟨["ph_time", "pH_free"], [[.null, .num ⟨7,1⟩]]⟩
    ⟨["ph_time", "pH_free"], [[.null, .num ⟨7,1⟩]]⟩
    ⟨"ph_time", ["pH_free"]⟩ ⟨"ph_time", ["pH_free"]⟩ rfl rfl

/-- C10: whenever the current metric selection is `None` or no longer
among the resolved pH columns, `update_dropdown` picks `"ph_total"` when
resolved, else `"pH_free"` when resolved, else the first resolved pH
column; otherwise it keeps the current selection unchanged. -/
theorem C10_dropdown_default (current : Option String) (cols : List String) :
    ((current = none ∨ ∃ v, current = some v ∧ cols.contains v = false) →
      dropdownValueUpdate current cols =
        (if cols.contains "ph_total" then some "ph_total"
         else if cols.contains "pH_free" then some "pH_free"
         else cols.head?))
    ∧ (∀ v, current = some v → cols.contains v = true →
        dropdownValueUpdate current cols = some v) := by
  constructor
  · rintro (rfl | ⟨v, rfl, hv⟩)
    · rfl
    · unfold dropdownValueUpdate
      dsimp only
      rw [hv]
      simp only [Bool.false_eq_true, if_false]
      rfl
  · rintro v rfl hv
    unfold dropdownValueUpdate
    dsimp only
    rw [hv]
    simp

/-- C10 witness: a stale selection falls back to `"ph_total"`, and a
still-valid selection is retained. -/
theorem C10_witness :
    dropdownValueUpdate (some "x") ["ph_total", "pH_free"] = some "ph_total"
      ∧ dropdownValueUpdate (some "pH_free") ["ph_total", "pH_free"] = some "pH_free" :=
  ⟨((C10_dropdown_default (some "x") ["ph_total", "pH_free"]).1
      (Or.inr ⟨"x", rfl, by decide⟩)).trans (by decide),
   (C10_dropdown_default (some "pH_free") ["ph_total", "pH_free"]).2
     "pH_free" rfl (by decide)⟩

end PhPlotter
